import Mathlib

/-!
Verification of the bing-search agent driver script (src/main.py).

The script is shallowly embedded: the process environment is a partial map
from variable names to string values; the credential selector is a pure
function; the agent session driver is a function from the environment and an
abstract remote-service oracle to a trace of observable events (stdout
lines, stderr lines, remote calls, client release) together with an outcome
(normal completion, process exit, or a propagated remote fault).
-/

namespace BingSearch

/-- The process environment: a variable is either absent (`none`) or bound
to a string (possibly empty). -/
def Env : Type := String → Option String

/-- Python truthiness of an `os.environ.get` result: `None` and the empty
string are falsy, every non-empty string is truthy. -/
def truthy : Option String → Bool
  | none => false
  | some s => !s.isEmpty

/-- A `sys.exit` triggered by `get_env`: the diagnostic printed to stderr
and the exit code. -/
structure ExitCall where
  stderrMsg : String
  code : Nat
deriving DecidableEq, Repr

/-- Embedding of `get_env` (src/main.py lines 11-16): read the variable;
if it is absent or empty and required, print a diagnostic to stderr and
exit with status 1; otherwise return the raw value. -/
def get_env (env : Env) (name : String) (required : Bool) :
    Except ExitCall (Option String) :=
  let value := env name
  if !truthy value && required then
    Except.error ⟨"Missing required environment variable: " ++ name, 1⟩
  else
    Except.ok value

/-- The two credential variants the selector can produce. -/
inductive Credential
  | clientSecretCred (tenant_id client_id client_secret : String)
  | defaultAzureCred
deriving DecidableEq, Repr

/-- Is the credential the secret-based service-identity variant? -/
def isServiceIdentity : Credential → Bool
  | Credential.clientSecretCred _ _ _ => true
  | Credential.defaultAzureCred => false

/-- The project client: endpoint plus the chosen credential. -/
structure AIProjectClient where
  endpoint : String
  credential : Credential
deriving DecidableEq, Repr

/-- First line of the API-key-ignored warning block (src/main.py line 52). -/
def apiKeyWarningLine : String :=
  "⚠️  Note: Azure AI Foundry AIProjectClient doesn\x27t support direct API key authentication."

/-- Embedding of `create_project_client` (src/main.py lines 19-61): read
the three service-principal variables from the environment; if all three
are truthy, pick the client-secret credential; otherwise pick the default
(ambient) credential, warning when an API key was supplied. Returns the
client together with the stdout lines printed, in order. -/
def create_project_client (env : Env) (endpoint : String)
    (api_key : Option String) : AIProjectClient × List String :=
  let client_id := env "AZURE_CLIENT_ID"
  let tenant_id := env "AZURE_TENANT_ID"
  let client_secret := env "AZURE_CLIENT_SECRET"
  if truthy client_id && truthy tenant_id && truthy client_secret then
    (⟨endpoint, Credential.clientSecretCred (tenant_id.getD "")
        (client_id.getD "") (client_secret.getD "")⟩,
     ["Using Service Principal authentication"])
  else
    let lines :=
      if truthy api_key then
        [apiKeyWarningLine,
         "API keys are used for individual Azure AI service connections, not for the project client.",
         "Using DefaultAzureCredential instead (Azure CLI login, Managed Identity, etc.)",
         "Your API key may be useful for other Azure AI services in your project.\n"]
      else
        ["Using DefaultAzureCredential authentication (Azure CLI/Managed Identity)"]
    (⟨endpoint, Credential.defaultAzureCred⟩, lines)

end BingSearch

namespace BingSearch

/-- Truthiness of an optional string is non-emptiness of its value, with
an absent value read as the empty string. -/
lemma truthy_iff (v : Option String) : truthy v = true ↔ v.getD "" ≠ "" := by
  cases v with
  | none => simp [truthy]
  | some s =>
      show (!s.isEmpty) = true ↔ (some s).getD "" ≠ ""
      rw [Option.getD_some, Ne, ← String.isEmpty_iff s]
      simp

/-- The service-principal guard of `create_project_client` holds exactly
when all three identity variables are non-empty. -/
lemma sp_guard_iff (env : Env) :
    (truthy (env "AZURE_CLIENT_ID") && truthy (env "AZURE_TENANT_ID") &&
        truthy (env "AZURE_CLIENT_SECRET")) = true ↔
      ((env "AZURE_CLIENT_ID").getD "" ≠ "" ∧ (env "AZURE_TENANT_ID").getD "" ≠ "" ∧
        (env "AZURE_CLIENT_SECRET").getD "" ≠ "") := by
  simp [Bool.and_eq_true, truthy_iff, and_assoc]

/-- C1: `create_project_client` selects the secret-based service-identity
credential exactly when client ID, tenant ID and client secret are all
simultaneously non-empty (an absent variable counting as empty), and the
ambient `DefaultAzureCredential` in every other case, for every value of
the API key. -/
theorem credential_selection_iff (env : Env) (endpoint : String)
    (api_key : Option String) :
    (isServiceIdentity (create_project_client env endpoint api_key).1.credential = true ↔
      ((env "AZURE_CLIENT_ID").getD "" ≠ "" ∧ (env "AZURE_TENANT_ID").getD "" ≠ "" ∧
        (env "AZURE_CLIENT_SECRET").getD "" ≠ "")) ∧
    (isServiceIdentity (create_project_client env endpoint api_key).1.credential = false ↔
      (create_project_client env endpoint api_key).1.credential = Credential.defaultAzureCred) := by
  constructor
  · rw [← sp_guard_iff]
    unfold create_project_client
    by_cases h : (truthy (env "AZURE_CLIENT_ID") && truthy (env "AZURE_TENANT_ID") &&
        truthy (env "AZURE_CLIENT_SECRET")) = true
    · simp [h, isServiceIdentity]
    · simp only [Bool.not_eq_true] at h
      simp [h, isServiceIdentity]
  · cases hcred : (create_project_client env endpoint api_key).1.credential with
    | clientSecretCred t c s => simp [isServiceIdentity]
    | defaultAzureCred => simp [isServiceIdentity]

/-- C2: the API-key-ignored warning appears in the stdout of
`create_project_client` exactly when the ambient branch is taken and the
supplied API key is non-empty; in particular it is absent whenever the
service-identity branch is taken, and absent when no API key was given. -/
theorem api_key_warning_iff (env : Env) (endpoint : String)
    (api_key : Option String) :
    apiKeyWarningLine ∈ (create_project_client env endpoint api_key).2 ↔
      (isServiceIdentity (create_project_client env endpoint api_key).1.credential = false ∧
        api_key.getD "" ≠ "") := by
  unfold create_project_client
  by_cases h : (truthy (env "AZURE_CLIENT_ID") && truthy (env "AZURE_TENANT_ID") &&
      truthy (env "AZURE_CLIENT_SECRET")) = true
  · constructor
    · intro hmem
      exfalso
      simp [h, apiKeyWarningLine] at hmem
    · rintro ⟨hsvc, -⟩
      exfalso
      simp [h, isServiceIdentity] at hsvc
  · simp only [Bool.not_eq_true] at h
    by_cases hk : truthy api_key = true
    · simp [h, hk, isServiceIdentity, (truthy_iff _).mp hk]
    · simp only [Bool.not_eq_true] at hk
      have hke : ¬ api_key.getD "" ≠ "" := fun hc => by
        have htk := (truthy_iff api_key).mpr hc
        rw [hk] at htk
        exact Bool.noConfusion htk
      simp [h, hk, isServiceIdentity, hke, apiKeyWarningLine]

/-! ## The agent session driver -/

/-- A remote fault: the payload of an exception raised by a remote call. -/
def Err : Type := String
deriving instance DecidableEq, Repr for Err

/-- Snapshot of a created agent (only its id is consumed locally). -/
structure Agent where
  id : String
deriving DecidableEq, Repr

/-- Snapshot of a created thread. -/
structure Thread where
  id : String
deriving DecidableEq, Repr

/-- Snapshot of a created message; the script reads its id by subscript. -/
structure Message where
  id : String
deriving DecidableEq, Repr

/-- Snapshot of a processed run: id, terminal status, and the printed form
of its last error detail. -/
structure Run where
  id : String
  status : String
  last_error : String
deriving DecidableEq, Repr

/-- An element returned by a listing: either a mapping (a Python `dict`,
looked up with `.get`) or an object whose named attributes are read with
`getattr(_, _, None)`. Both carry finitely many string-valued fields. -/
inductive Elem
  | dict (entries : List (String × String))
  | obj (attrs : List (String × String))
deriving DecidableEq, Repr

/-- `dict.get(key)`: the value, or `None` when the key is absent. -/
def dict_get (entries : List (String × String)) (key : String) : Option String :=
  match entries.find? (fun p => p.1 == key) with
  | some p => some p.2
  | none => none

/-- `getattr(obj, name, None)`: the attribute value, or `None` when the
object has no such attribute. -/
def getattr_or_none (attrs : List (String × String)) (name : String) : Option String :=
  match attrs.find? (fun p => p.1 == name) with
  | some p => some p.2
  | none => none

/-- The defensive field resolution used for every listed element
(src/main.py lines 116-135): key lookup when the element is a mapping,
attribute access with `None` fallback otherwise. -/
def resolveField (m : Elem) (key : String) : Option String :=
  match m with
  | Elem.dict entries => dict_get entries key
  | Elem.obj attrs => getattr_or_none attrs key

/-- How Python prints an optional string inside an f-string: the value
itself, or the text `None`. -/
def pyStr (v : Option String) : String := v.getD "None"

/-- The line printed for one listed message. -/
def messageLine (m : Elem) : String :=
  " - " ++ pyStr (resolveField m "role") ++ ": " ++ pyStr (resolveField m "content")

/-- The line printed for one listed run step. -/
def stepLine (s : Elem) : String :=
  " Step " ++ pyStr (resolveField s "id") ++ " status: " ++ pyStr (resolveField s "status")

/-- A remote call made by the driver, with the arguments the script passes. -/
inductive CallEv
  | constructClient (endpoint : String) (credential : Credential)
  | createAgent (model name instructions toolsConnId : String)
  | createThread
  | createMessage (thread_id role content : String)
  | createRun (thread_id agent_id : String)
  | listMessages (thread_id : String)
  | listRunSteps (thread_id run_id : String)
  | deleteAgent (agent_id : String)
deriving DecidableEq, Repr

/-- An observable event of one process invocation. -/
inductive Ev
  | out (line : String)
  | err (line : String)
  | call (c : CallEv)
  | clientClosed
deriving DecidableEq, Repr

/-- The remote service, abstracted: each operation the script invokes
either returns a snapshot or raises. -/
structure Remote where
  create_agent : String → String → String → String → Except Err Agent
  threads_create : Except Err Thread
  messages_create : String → String → String → Except Err Message
  runs_create_and_process : String → String → Except Err Run
  messages_list : String → Except Err (List Elem)
  run_steps_list : String → String → Except Err (List Elem)
  delete_agent : String → Except Err Unit

/-- The fixed instructions passed to `create_agent`. -/
def agentInstructions : String :=
  "You are a helpful agent. Use Grounding with Bing Search to cite sources."

/-- The default question (src/main.py line 94). -/
def defaultQuestion : String := "How does wikipedia explain Euler\x27s Identity?"

/-- Cleanup phase (src/main.py lines 138-141): unless `KEEP_AGENT` is
truthy, delete the agent and print the confirmation. -/
def cleanupPhase (env : Env) (r : Remote) (agent_id : String) :
    List Ev × Option Err :=
  if truthy (env "KEEP_AGENT") then ([], none)
  else
    match r.delete_agent agent_id with
    | Except.error e => ([Ev.call (CallEv.deleteAgent agent_id)], some e)
    | Except.ok _ =>
        ([Ev.call (CallEv.deleteAgent agent_id), Ev.out "Deleted agent"], none)

/-- Run-step listing phase (src/main.py lines 122-136). -/
def stepsPhase (env : Env) (r : Remote) (thread_id run_id agent_id : String) :
    List Ev × Option Err :=
  match r.run_steps_list thread_id run_id with
  | Except.error e =>
      ([Ev.out "\nRun steps:", Ev.call (CallEv.listRunSteps thread_id run_id)], some e)
  | Except.ok steps =>
      let next := cleanupPhase env r agent_id
      (Ev.out "\nRun steps:" :: Ev.call (CallEv.listRunSteps thread_id run_id) ::
        (steps.map (fun s => Ev.out (stepLine s)) ++ next.1), next.2)

/-- Message listing phase (src/main.py lines 112-120). -/
def messagesPhase (env : Env) (r : Remote) (thread_id run_id agent_id : String) :
    List Ev × Option Err :=
  match r.messages_list thread_id with
  | Except.error e =>
      ([Ev.out "Messages:", Ev.call (CallEv.listMessages thread_id)], some e)
  | Except.ok msgs =>
      let next := stepsPhase env r thread_id run_id agent_id
      (Ev.out "Messages:" :: Ev.call (CallEv.listMessages thread_id) ::
        (msgs.map (fun m => Ev.out (messageLine m)) ++ next.1), next.2)

/-- Run phase (src/main.py lines 103-110): create and process the run,
print its status, and on status `failed` print the last error detail. -/
def runPhase (env : Env) (r : Remote) (thread_id agent_id : String) :
    List Ev × Option Err :=
  match r.runs_create_and_process thread_id agent_id with
  | Except.error e => ([Ev.call (CallEv.createRun thread_id agent_id)], some e)
  | Except.ok run =>
      let next := messagesPhase env r thread_id run.id agent_id
      (Ev.call (CallEv.createRun thread_id agent_id) ::
        Ev.out ("Run finished with status: " ++ run.status) ::
        ((if run.status == "failed" then [Ev.out ("Run failed: " ++ run.last_error)] else []) ++
          next.1), next.2)

/-- Message creation phase (src/main.py lines 93-101): resolve the
question from the environment and post the single user message. -/
def messagePhase (env : Env) (r : Remote) (thread_id agent_id : String) :
    List Ev × Option Err :=
  let question := (env "QUESTION").getD defaultQuestion
  match r.messages_create thread_id "user" question with
  | Except.error e => ([Ev.call (CallEv.createMessage thread_id "user" question)], some e)
  | Except.ok message =>
      let next := runPhase env r thread_id agent_id
      (Ev.call (CallEv.createMessage thread_id "user" question) ::
        Ev.out ("Created message, ID: " ++ message.id) :: next.1, next.2)

/-- Thread creation phase (src/main.py lines 90-91). -/
def threadPhase (env : Env) (r : Remote) (agent_id : String) :
    List Ev × Option Err :=
  match r.threads_create with
  | Except.error e => ([Ev.call CallEv.createThread], some e)
  | Except.ok thread =>
      let next := messagePhase env r thread.id agent_id
      (Ev.call CallEv.createThread ::
        Ev.out ("Created thread, ID: " ++ thread.id) :: next.1, next.2)

/-- The body of the `with project_client` block (src/main.py lines 79-141),
starting from agent creation. -/
def driverBody (env : Env) (r : Remote) (model_name bing_connection_id : String) :
    List Ev × Option Err :=
  match r.create_agent model_name "bigsearch-agent" agentInstructions bing_connection_id with
  | Except.error e =>
      ([Ev.call (CallEv.createAgent model_name "bigsearch-agent" agentInstructions
          bing_connection_id)], some e)
  | Except.ok agent =>
      let next := threadPhase env r agent.id
      (Ev.call (CallEv.createAgent model_name "bigsearch-agent" agentInstructions
          bing_connection_id) ::
        Ev.out ("Created agent, ID: " ++ agent.id) :: next.1, next.2)

/-- Outcome of one invocation: `sys.exit(code)`, a propagated remote
fault terminating the process, or normal completion. -/
inductive Outcome
  | exited (code : Nat)
  | raised (e : Err)
  | completed
deriving DecidableEq, Repr

/-- Full result of one invocation: the event trace and the outcome. -/
structure MainResult where
  trace : List Ev
  outcome : Outcome

/-- Embedding of `main` (src/main.py lines 64-141): read the required and
optional variables (exiting on a missing required one), build the project
client, then run the `with` block; the client is released when the block
is left on any path, so `Ev.clientClosed` ends the trace whether the body
completed or raised. -/
def main (env : Env) (r : Remote) : MainResult :=
  match get_env env "PROJECT_ENDPOINT" true with
  | Except.error ec => ⟨[Ev.err ec.stderrMsg], Outcome.exited ec.code⟩
  | Except.ok project_endpoint =>
  match get_env env "MODEL_DEPLOYMENT_NAME" true with
  | Except.error ec => ⟨[Ev.err ec.stderrMsg], Outcome.exited ec.code⟩
  | Except.ok model_name =>
  match get_env env "BING_CONNECTION_ID" true with
  | Except.error ec => ⟨[Ev.err ec.stderrMsg], Outcome.exited ec.code⟩
  | Except.ok bing_connection_id =>
  match get_env env "AZURE_AI_FOUNDRY_API_KEY" false with
  | Except.error ec => ⟨[Ev.err ec.stderrMsg], Outcome.exited ec.code⟩
  | Except.ok api_key =>
    let pc := create_project_client env (project_endpoint.getD "") api_key
    let body := driverBody env r (model_name.getD "") (bing_connection_id.getD "")
    ⟨pc.2.map Ev.out ++
        Ev.call (CallEv.constructClient (project_endpoint.getD "") pc.1.credential) ::
        (body.1 ++ [Ev.clientClosed]),
      match body.2 with
      | none => Outcome.completed
      | some e => Outcome.raised e⟩

/-! ## Concrete environments and remote oracles for evaluation -/

/-- Build an environment from an association list. -/
def envOfList (l : List (String × String)) : Env := fun name =>
  match l.find? (fun p => p.1 == name) with
  | some p => some p.2
  | none => none

/-- The empty environment: every variable absent. -/
def emptyEnv : Env := envOfList []

/-- A remote oracle on which every call succeeds and the run completes. -/
def okRemote : Remote where
  create_agent := fun _ _ _ _ => Except.ok ⟨"agent-1"⟩
  threads_create := Except.ok ⟨"thread-1"⟩
  messages_create := fun _ _ _ => Except.ok ⟨"msg-1"⟩
  runs_create_and_process := fun _ _ => Except.ok ⟨"run-1", "completed", "None"⟩
  messages_list := fun _ =>
    Except.ok [Elem.dict [("role", "user"), ("content", "q")],
      Elem.obj [("role", "assistant"), ("content", "a")]]
  run_steps_list := fun _ _ =>
    Except.ok [Elem.obj [("id", "step-1"), ("status", "completed")]]
  delete_agent := fun _ => Except.ok ()

/-- A remote oracle on which every call succeeds but the run fails. -/
def failRemote : Remote :=
  { okRemote with
    runs_create_and_process := fun _ _ => Except.ok ⟨"run-1", "failed", "rate limited"⟩ }

/-! ## Helper lemmas -/

/-- Falsity of truthiness is emptiness of the value read with default. -/
lemma truthy_eq_false_iff (v : Option String) : truthy v = false ↔ v.getD "" = "" := by
  rw [Bool.eq_false_iff, Ne, truthy_iff, not_not]

/-- `get_env` on a required, missing-or-empty variable exits with the
diagnostic. -/
lemma get_env_required_missing (env : Env) (name : String)
    (h : truthy (env name) = false) :
    get_env env name true =
      Except.error ⟨"Missing required environment variable: " ++ name, 1⟩ := by
  simp [get_env, h]

/-- `get_env` on a required, present variable returns it. -/
lemma get_env_required_present (env : Env) (name : String)
    (h : truthy (env name) = true) :
    get_env env name true = Except.ok (env name) := by
  simp [get_env, h]

/-- `get_env` on an optional variable never exits. -/
lemma get_env_optional (env : Env) (name : String) :
    get_env env name false = Except.ok (env name) := by
  simp [get_env]

/-- A string starting with character `c` differs from any string not
starting with `c`, whatever is appended after it. -/
lemma append_ne_of_head (p x q : String) (c : Char) (cs : List Char)
    (hp : p.data = c :: cs) (hq : q.data.head? ≠ some c) : p ++ x ≠ q := by
  intro h
  apply hq
  rw [← h]
  show (p ++ x).data.head? = some c
  rw [String.data_append, hp]
  rfl

/-- A printed message line never reads `Deleted agent`. -/
lemma messageLine_ne_deleted (m : Elem) : messageLine m ≠ "Deleted agent" := by
  unfold messageLine
  rw [String.append_assoc, String.append_assoc]
  exact append_ne_of_head _ _ _ ' ' _ rfl (by decide)

/-- A printed run-step line never reads `Deleted agent`. -/
lemma stepLine_ne_deleted (s : Elem) : stepLine s ≠ "Deleted agent" := by
  unfold stepLine
  rw [String.append_assoc, String.append_assoc]
  exact append_ne_of_head _ _ _ ' ' _ rfl (by decide)

/-- Does an event record the single user-message creation call? -/
def isCreateMessage : Ev → Bool
  | Ev.call (CallEv.createMessage _ _ _) => true
  | _ => false

/-- No event of `cleanupPhase` is a message-creation call. -/
lemma cleanup_noCreateMessage (env : Env) (r : Remote) (aid : String) :
    ∀ ev ∈ (cleanupPhase env r aid).1, isCreateMessage ev = false := by
  intro ev hev
  unfold cleanupPhase at hev
  by_cases hk : truthy (env "KEEP_AGENT") = true
  · simp [hk] at hev
  · simp only [Bool.not_eq_true] at hk
    cases hd : r.delete_agent aid with
    | error e =>
        simp only [hk, Bool.false_eq_true, if_false, hd] at hev
        simp only [List.mem_singleton] at hev
        subst hev
        rfl
    | ok u =>
        simp only [hk, Bool.false_eq_true, if_false, hd] at hev
        rcases List.mem_cons.mp hev with rfl | hev
        · rfl
        · rcases List.mem_singleton.mp hev with rfl
          rfl

/-- No event of `stepsPhase` is a message-creation call. -/
lemma steps_noCreateMessage (env : Env) (r : Remote) (tid rid aid : String) :
    ∀ ev ∈ (stepsPhase env r tid rid aid).1, isCreateMessage ev = false := by
  intro ev hev
  cases hs : r.run_steps_list tid rid with
  | error e =>
      simp only [stepsPhase, hs] at hev
      rcases List.mem_cons.mp hev with rfl | hev
      · rfl
      · rcases List.mem_singleton.mp hev with rfl
        rfl
  | ok steps =>
      simp only [stepsPhase, hs] at hev
      rcases List.mem_cons.mp hev with rfl | hev
      · rfl
      rcases List.mem_cons.mp hev with rfl | hev
      · rfl
      rcases List.mem_append.mp hev with hev | hev
      · rcases List.mem_map.mp hev with ⟨s, -, rfl⟩
        rfl
      · exact cleanup_noCreateMessage env r aid ev hev

/-- No event of `messagesPhase` is a message-creation call. -/
lemma messages_noCreateMessage (env : Env) (r : Remote) (tid rid aid : String) :
    ∀ ev ∈ (messagesPhase env r tid rid aid).1, isCreateMessage ev = false := by
  intro ev hev
  cases hm : r.messages_list tid with
  | error e =>
      simp only [messagesPhase, hm] at hev
      rcases List.mem_cons.mp hev with rfl | hev
      · rfl
      · rcases List.mem_singleton.mp hev with rfl
        rfl
  | ok msgs =>
      simp only [messagesPhase, hm] at hev
      rcases List.mem_cons.mp hev with rfl | hev
      · rfl
      rcases List.mem_cons.mp hev with rfl | hev
      · rfl
      rcases List.mem_append.mp hev with hev | hev
      · rcases List.mem_map.mp hev with ⟨m, -, rfl⟩
        rfl
      · exact steps_noCreateMessage env r tid rid aid ev hev

/-- No event of `runPhase` is a message-creation call. -/
lemma run_noCreateMessage (env : Env) (r : Remote) (tid aid : String) :
    ∀ ev ∈ (runPhase env r tid aid).1, isCreateMessage ev = false := by
  intro ev hev
  cases hr : r.runs_create_and_process tid aid with
  | error e =>
      simp only [runPhase, hr] at hev
      rcases List.mem_singleton.mp hev with rfl
      rfl
  | ok run =>
      simp only [runPhase, hr] at hev
      rcases List.mem_cons.mp hev with rfl | hev
      · rfl
      rcases List.mem_cons.mp hev with rfl | hev
      · rfl
      rcases List.mem_append.mp hev with hev | hev
      · by_cases hf : (run.status == "failed") = true
        · simp only [hf, if_pos rfl] at hev
          rcases List.mem_singleton.mp hev with rfl
          rfl
        · simp only [Bool.not_eq_true] at hf
          simp [hf] at hev
      · exact messages_noCreateMessage env r tid run.id aid ev hev

/-- An event that is neither an agent-deletion call nor the deletion
confirmation line. -/
def nonDeletionEv (ev : Ev) : Prop :=
  (∀ a, ev ≠ Ev.call (CallEv.deleteAgent a)) ∧ ev ≠ Ev.out "Deleted agent"

/-- A stdout line whose text starts with a character other than `D` is not
a deletion event. -/
lemma nonDeletionEv_out_of_ne {s : String} (h : s ≠ "Deleted agent") :
    nonDeletionEv (Ev.out s) := by
  constructor
  · intro a hc
    exact Ev.noConfusion hc
  · intro hc
    apply h
    injection hc

/-- When `KEEP_AGENT` is truthy, `cleanupPhase` emits nothing. -/
lemma cleanup_trace_keep (env : Env) (r : Remote) (aid : String)
    (hk : truthy (env "KEEP_AGENT") = true) : (cleanupPhase env r aid).1 = [] := by
  simp [cleanupPhase, hk]

/-- When `KEEP_AGENT` is truthy, no event of `stepsPhase` is a deletion
call or the deletion confirmation. -/
lemma steps_nonDeletion (env : Env) (r : Remote) (tid rid aid : String)
    (hk : truthy (env "KEEP_AGENT") = true) :
    ∀ ev ∈ (stepsPhase env r tid rid aid).1, nonDeletionEv ev := by
  intro ev hev
  cases hs : r.run_steps_list tid rid with
  | error e =>
      simp only [stepsPhase, hs] at hev
      rcases List.mem_cons.mp hev with rfl | hev
      · exact nonDeletionEv_out_of_ne (by decide)
      rcases List.mem_singleton.mp hev with rfl
      exact ⟨fun a hc => by simp at hc, fun hc => Ev.noConfusion hc⟩
  | ok steps =>
      simp only [stepsPhase, hs] at hev
      rcases List.mem_cons.mp hev with rfl | hev
      · exact nonDeletionEv_out_of_ne (by decide)
      rcases List.mem_cons.mp hev with rfl | hev
      · exact ⟨fun a hc => by simp at hc, fun hc => Ev.noConfusion hc⟩
      rcases List.mem_append.mp hev with hev | hev
      · rcases List.mem_map.mp hev with ⟨s, -, rfl⟩
        exact nonDeletionEv_out_of_ne (stepLine_ne_deleted s)
      · rw [cleanup_trace_keep env r aid hk] at hev
        exact absurd hev (List.not_mem_nil ev)

/-- When `KEEP_AGENT` is truthy, no event of `messagesPhase` is a deletion
call or the deletion confirmation. -/
lemma messages_nonDeletion (env : Env) (r : Remote) (tid rid aid : String)
    (hk : truthy (env "KEEP_AGENT") = true) :
    ∀ ev ∈ (messagesPhase env r tid rid aid).1, nonDeletionEv ev := by
  intro ev hev
  cases hm : r.messages_list tid with
  | error e =>
      simp only [messagesPhase, hm] at hev
      rcases List.mem_cons.mp hev with rfl | hev
      · exact nonDeletionEv_out_of_ne (by decide)
      rcases List.mem_singleton.mp hev with rfl
      exact ⟨fun a hc => by simp at hc, fun hc => Ev.noConfusion hc⟩
  | ok msgs =>
      simp only [messagesPhase, hm] at hev
      rcases List.mem_cons.mp hev with rfl | hev
      · exact nonDeletionEv_out_of_ne (by decide)
      rcases List.mem_cons.mp hev with rfl | hev
      · exact ⟨fun a hc => by simp at hc, fun hc => Ev.noConfusion hc⟩
      rcases List.mem_append.mp hev with hev | hev
      · rcases List.mem_map.mp hev with ⟨m, -, rfl⟩
        exact nonDeletionEv_out_of_ne (messageLine_ne_deleted m)
      · exact steps_nonDeletion env r tid rid aid hk ev hev

/-- When `KEEP_AGENT` is truthy, no event of `runPhase` is a deletion call
or the deletion confirmation. -/
lemma run_nonDeletion (env : Env) (r : Remote) (tid aid : String)
    (hk : truthy (env "KEEP_AGENT") = true) :
    ∀ ev ∈ (runPhase env r tid aid).1, nonDeletionEv ev := by
  intro ev hev
  cases hr : r.runs_create_and_process tid aid with
  | error e =>
      simp only [runPhase, hr] at hev
      rcases List.mem_singleton.mp hev with rfl
      exact ⟨fun a hc => by simp at hc, fun hc => Ev.noConfusion hc⟩
  | ok run =>
      simp only [runPhase, hr] at hev
      rcases List.mem_cons.mp hev with rfl | hev
      · exact ⟨fun a hc => by simp at hc, fun hc => Ev.noConfusion hc⟩
      rcases List.mem_cons.mp hev with rfl | hev
      · exact nonDeletionEv_out_of_ne
          (append_ne_of_head _ _ _ 'R' _ rfl (by decide))
      rcases List.mem_append.mp hev with hev | hev
      · by_cases hf : (run.status == "failed") = true
        · simp only [hf, if_pos rfl] at hev
          rcases List.mem_singleton.mp hev with rfl
          exact nonDeletionEv_out_of_ne
            (append_ne_of_head _ _ _ 'R' _ rfl (by decide))
        · simp only [Bool.not_eq_true] at hf
          simp [hf] at hev
      · exact messages_nonDeletion env r tid run.id aid hk ev hev

/-- When `KEEP_AGENT` is truthy, no event of `messagePhase` is a deletion
call or the deletion confirmation. -/
lemma message_nonDeletion (env : Env) (r : Remote) (tid aid : String)
    (hk : truthy (env "KEEP_AGENT") = true) :
    ∀ ev ∈ (messagePhase env r tid aid).1, nonDeletionEv ev := by
  intro ev hev
  unfold messagePhase at hev
  cases hm : r.messages_create tid "user" ((env "QUESTION").getD defaultQuestion) with
  | error e =>
      simp only [hm] at hev
      rcases List.mem_singleton.mp hev with rfl
      exact ⟨fun a hc => by simp at hc, fun hc => Ev.noConfusion hc⟩
  | ok message =>
      simp only [hm] at hev
      rcases List.mem_cons.mp hev with rfl | hev
      · exact ⟨fun a hc => by simp at hc, fun hc => Ev.noConfusion hc⟩
      rcases List.mem_cons.mp hev with rfl | hev
      · exact nonDeletionEv_out_of_ne
          (append_ne_of_head _ _ _ 'C' _ rfl (by decide))
      · exact run_nonDeletion env r tid aid hk ev hev

/-- When `KEEP_AGENT` is truthy, no event of `threadPhase` is a deletion
call or the deletion confirmation. -/
lemma thread_nonDeletion (env : Env) (r : Remote) (aid : String)
    (hk : truthy (env "KEEP_AGENT") = true) :
    ∀ ev ∈ (threadPhase env r aid).1, nonDeletionEv ev := by
  intro ev hev
  cases ht : r.threads_create with
  | error e =>
      simp only [threadPhase, ht] at hev
      rcases List.mem_singleton.mp hev with rfl
      exact ⟨fun a hc => by simp at hc, fun hc => Ev.noConfusion hc⟩
  | ok thread =>
      simp only [threadPhase, ht] at hev
      rcases List.mem_cons.mp hev with rfl | hev
      · exact ⟨fun a hc => by simp at hc, fun hc => Ev.noConfusion hc⟩
      rcases List.mem_cons.mp hev with rfl | hev
      · exact nonDeletionEv_out_of_ne
          (append_ne_of_head _ _ _ 'C' _ rfl (by decide))
      · exact message_nonDeletion env r thread.id aid hk ev hev

/-- When `KEEP_AGENT` is truthy, no event of the whole driver body is a
deletion call or the deletion confirmation. -/
lemma driverBody_nonDeletion (env : Env) (r : Remote) (mn bc : String)
    (hk : truthy (env "KEEP_AGENT") = true) :
    ∀ ev ∈ (driverBody env r mn bc).1, nonDeletionEv ev := by
  intro ev hev
  cases ha : r.create_agent mn "bigsearch-agent" agentInstructions bc with
  | error e =>
      simp only [driverBody, ha] at hev
      rcases List.mem_singleton.mp hev with rfl
      exact ⟨fun a hc => by simp at hc, fun hc => Ev.noConfusion hc⟩
  | ok agent =>
      simp only [driverBody, ha] at hev
      rcases List.mem_cons.mp hev with rfl | hev
      · exact ⟨fun a hc => by simp at hc, fun hc => Ev.noConfusion hc⟩
      rcases List.mem_cons.mp hev with rfl | hev
      · exact nonDeletionEv_out_of_ne
          (append_ne_of_head _ _ _ 'C' _ rfl (by decide))
      · exact thread_nonDeletion env r agent.id hk ev hev

/-- All remote calls up to and including the two listings succeed, with the
given snapshots as results. -/
def allOk (env : Env) (r : Remote) (model_name bing_connection_id : String)
    (agent : Agent) (thread : Thread) (msg : Message) (run : Run)
    (msgs steps : List Elem) : Prop :=
  r.create_agent model_name "bigsearch-agent" agentInstructions bing_connection_id =
      Except.ok agent ∧
  r.threads_create = Except.ok thread ∧
  r.messages_create thread.id "user" ((env "QUESTION").getD defaultQuestion) =
      Except.ok msg ∧
  r.runs_create_and_process thread.id agent.id = Except.ok run ∧
  r.messages_list thread.id = Except.ok msgs ∧
  r.run_steps_list thread.id run.id = Except.ok steps

/-- Shape of the driver trace on a path where every remote call up to the
listings succeeds. -/
lemma driverBody_trace_of_allOk (env : Env) (r : Remote) (mn bc : String)
    (agent : Agent) (thread : Thread) (msg : Message) (run : Run)
    (msgs steps : List Elem)
    (h : allOk env r mn bc agent thread msg run msgs steps) :
    (driverBody env r mn bc).1 =
      Ev.call (CallEv.createAgent mn "bigsearch-agent" agentInstructions bc) ::
      Ev.out ("Created agent, ID: " ++ agent.id) ::
      Ev.call CallEv.createThread ::
      Ev.out ("Created thread, ID: " ++ thread.id) ::
      Ev.call (CallEv.createMessage thread.id "user"
        ((env "QUESTION").getD defaultQuestion)) ::
      Ev.out ("Created message, ID: " ++ msg.id) ::
      Ev.call (CallEv.createRun thread.id agent.id) ::
      Ev.out ("Run finished with status: " ++ run.status) ::
      ((if run.status == "failed" then [Ev.out ("Run failed: " ++ run.last_error)]
        else []) ++
        Ev.out "Messages:" :: Ev.call (CallEv.listMessages thread.id) ::
        (msgs.map (fun m => Ev.out (messageLine m)) ++
          Ev.out "\nRun steps:" :: Ev.call (CallEv.listRunSteps thread.id run.id) ::
          (steps.map (fun s => Ev.out (stepLine s)) ++
            (cleanupPhase env r agent.id).1))) := by
  obtain ⟨h1, h2, h3, h4, h5, h6⟩ := h
  simp [driverBody, threadPhase, messagePhase, runPhase, messagesPhase, stepsPhase,
    h1, h2, h3, h4, h5, h6]

/-- Every message-creation call recorded in the driver trace carries the
role `user` and the configured question (defaulted only when `QUESTION` is
absent). -/
lemma createMessage_mem_inv (env : Env) (r : Remote) (mn bc : String)
    (tid role content : String)
    (h : Ev.call (CallEv.createMessage tid role content) ∈ (driverBody env r mn bc).1) :
    role = "user" ∧ content = (env "QUESTION").getD defaultQuestion := by
  cases ha : r.create_agent mn "bigsearch-agent" agentInstructions bc with
  | error e =>
      simp only [driverBody, ha] at h
      rcases List.mem_singleton.mp h with h
      exact absurd (congrArg isCreateMessage h) (by simp [isCreateMessage])
  | ok agent =>
      simp only [driverBody, ha] at h
      rcases List.mem_cons.mp h with h | h
      · exact absurd (congrArg isCreateMessage h) (by simp [isCreateMessage])
      rcases List.mem_cons.mp h with h | h
      · exact absurd (congrArg isCreateMessage h) (by simp [isCreateMessage])
      cases ht : r.threads_create with
      | error e =>
          simp only [threadPhase, ht] at h
          rcases List.mem_singleton.mp h with h
          exact absurd (congrArg isCreateMessage h) (by simp [isCreateMessage])
      | ok thread =>
          simp only [threadPhase, ht] at h
          rcases List.mem_cons.mp h with h | h
          · exact absurd (congrArg isCreateMessage h) (by simp [isCreateMessage])
          rcases List.mem_cons.mp h with h | h
          · exact absurd (congrArg isCreateMessage h) (by simp [isCreateMessage])
          cases hm : r.messages_create thread.id "user"
              ((env "QUESTION").getD defaultQuestion) with
          | error e =>
              simp only [messagePhase, hm] at h
              rcases List.mem_singleton.mp h with h
              have := (Ev.call.injEq _ _).mp h
              have := (CallEv.createMessage.injEq _ _ _ _ _ _).mp this
              exact ⟨this.2.1, this.2.2⟩
          | ok message =>
              simp only [messagePhase, hm] at h
              rcases List.mem_cons.mp h with h | h
              · have := (Ev.call.injEq _ _).mp h
                have := (CallEv.createMessage.injEq _ _ _ _ _ _).mp this
                exact ⟨this.2.1, this.2.2⟩
              rcases List.mem_cons.mp h with h | h
              · exact absurd (congrArg isCreateMessage h) (by simp [isCreateMessage])
              · have := run_noCreateMessage env r thread.id agent.id _ h
                simp [isCreateMessage] at this

/-- On a path where agent and thread creation succeed, the driver records
the single user-message creation call with the configured question. -/
lemma createMessage_mem (env : Env) (r : Remote) (mn bc : String)
    (agent : Agent) (thread : Thread)
    (h1 : r.create_agent mn "bigsearch-agent" agentInstructions bc = Except.ok agent)
    (h2 : r.threads_create = Except.ok thread) :
    Ev.call (CallEv.createMessage thread.id "user"
      ((env "QUESTION").getD defaultQuestion)) ∈ (driverBody env r mn bc).1 := by
  simp only [driverBody, h1, threadPhase, h2]
  cases hm : r.messages_create thread.id "user" ((env "QUESTION").getD defaultQuestion) with
  | error e =>
      simp only [messagePhase, hm]
      simp
  | ok message =>
      simp only [messagePhase, hm]
      simp

/-- On a path where agent and thread creation succeed, the driver records
exactly one message-creation call. -/
lemma countP_createMessage (env : Env) (r : Remote) (mn bc : String)
    (agent : Agent) (thread : Thread)
    (h1 : r.create_agent mn "bigsearch-agent" agentInstructions bc = Except.ok agent)
    (h2 : r.threads_create = Except.ok thread) :
    (driverBody env r mn bc).1.countP isCreateMessage = 1 := by
  have hrun : (runPhase env r thread.id agent.id).1.countP isCreateMessage = 0 :=
    List.countP_eq_zero.mpr (by
      intro ev hev
      simp [run_noCreateMessage env r thread.id agent.id ev hev])
  simp only [driverBody, h1, threadPhase, h2]
  cases hm : r.messages_create thread.id "user" ((env "QUESTION").getD defaultQuestion) with
  | error e =>
      simp only [messagePhase, hm]
      simp [List.countP_cons, isCreateMessage]
  | ok message =>
      simp only [messagePhase, hm]
      simp [List.countP_cons, isCreateMessage, hrun]

/-! ## Further concrete data for evaluation -/

/-- The message list returned by `okRemote`. -/
def msgsW : List Elem :=
  [Elem.dict [("role", "user"), ("content", "q")],
   Elem.obj [("role", "assistant"), ("content", "a")]]

/-- The run-step list returned by `okRemote`. -/
def stepsW : List Elem := [Elem.obj [("id", "step-1"), ("status", "completed")]]

/-- An environment with the three required variables set. -/
def fullEnv : Env := envOfList
  [("PROJECT_ENDPOINT", "https://proj.example"),
   ("MODEL_DEPLOYMENT_NAME", "gpt"),
   ("BING_CONNECTION_ID", "conn-1")]

/-- An environment with `KEEP_AGENT` bound to a truthy value. -/
def envKeep : Env := envOfList [("KEEP_AGENT", "1")]

/-- An environment with `KEEP_AGENT` present but bound to the empty string. -/
def envKeepEmpty : Env := envOfList [("KEEP_AGENT", "")]

/-- An environment with `QUESTION` present but bound to the empty string. -/
def envEmptyQ : Env := envOfList [("QUESTION", "")]

/-! ## Claims C3 to C10 -/

/-- C3: whenever the endpoint, model name, or grounding connection ID
variable is absent or empty, `main` writes a diagnostic naming the missing
variable to stderr and exits with status 1, and the trace contains no
remote call (client construction included). -/
theorem missing_required_var_exits (env : Env) (r : Remote)
    (h : (env "PROJECT_ENDPOINT").getD "" = "" ∨
      (env "MODEL_DEPLOYMENT_NAME").getD "" = "" ∨
      (env "BING_CONNECTION_ID").getD "" = "") :
    ∃ name, name ∈ ["PROJECT_ENDPOINT", "MODEL_DEPLOYMENT_NAME", "BING_CONNECTION_ID"] ∧
      (env name).getD "" = "" ∧
      (main env r).trace = [Ev.err ("Missing required environment variable: " ++ name)] ∧
      (main env r).outcome = Outcome.exited 1 ∧
      ∀ c : CallEv, Ev.call c ∉ (main env r).trace := by
  cases hb1 : truthy (env "PROJECT_ENDPOINT") with
  | false =>
      refine ⟨"PROJECT_ENDPOINT", by simp, (truthy_eq_false_iff _).mp hb1, ?_, ?_, ?_⟩
      · simp [main, get_env_required_missing env _ hb1]
      · simp [main, get_env_required_missing env _ hb1]
      · intro c
        simp [main, get_env_required_missing env _ hb1]
  | true =>
      cases hb2 : truthy (env "MODEL_DEPLOYMENT_NAME") with
      | false =>
          refine ⟨"MODEL_DEPLOYMENT_NAME", by simp, (truthy_eq_false_iff _).mp hb2,
            ?_, ?_, ?_⟩
          · simp [main, get_env_required_present env _ hb1,
              get_env_required_missing env _ hb2]
          · simp [main, get_env_required_present env _ hb1,
              get_env_required_missing env _ hb2]
          · intro c
            simp [main, get_env_required_present env _ hb1,
              get_env_required_missing env _ hb2]
      | true =>
          cases hb3 : truthy (env "BING_CONNECTION_ID") with
          | false =>
              refine ⟨"BING_CONNECTION_ID", by simp, (truthy_eq_false_iff _).mp hb3,
                ?_, ?_, ?_⟩
              · simp [main, get_env_required_present env _ hb1,
                  get_env_required_present env _ hb2, get_env_required_missing env _ hb3]
              · simp [main, get_env_required_present env _ hb1,
                  get_env_required_present env _ hb2, get_env_required_missing env _ hb3]
              · intro c
                simp [main, get_env_required_present env _ hb1,
                  get_env_required_present env _ hb2, get_env_required_missing env _ hb3]
          | true =>
              exfalso
              rcases h with h | h | h
              · exact (truthy_iff _).mp hb1 h
              · exact (truthy_iff _).mp hb2 h
              · exact (truthy_iff _).mp hb3 h

/-- Witness for C3: with every variable absent, the process exits with
status 1. -/
theorem missing_required_var_exits_witness :
    (main emptyEnv okRemote).outcome = Outcome.exited 1 := by
  obtain ⟨-, -, -, -, hout, -⟩ :=
    missing_required_var_exits emptyEnv okRemote (Or.inl (by decide))
  exact hout

/-- C4: when the run ends with status `failed`, the driver prints the last
error detail and still lists the messages, lists the run steps, and (when
`KEEP_AGENT` is not truthy) attempts the agent deletion. -/
theorem failed_run_still_proceeds (env : Env) (r : Remote) (mn bc : String)
    (agent : Agent) (thread : Thread) (msg : Message) (run : Run)
    (msgs steps : List Elem)
    (h : allOk env r mn bc agent thread msg run msgs steps)
    (hf : run.status = "failed") :
    Ev.out ("Run failed: " ++ run.last_error) ∈ (driverBody env r mn bc).1 ∧
    Ev.call (CallEv.listMessages thread.id) ∈ (driverBody env r mn bc).1 ∧
    Ev.call (CallEv.listRunSteps thread.id run.id) ∈ (driverBody env r mn bc).1 ∧
    (truthy (env "KEEP_AGENT") = false →
      Ev.call (CallEv.deleteAgent agent.id) ∈ (driverBody env r mn bc).1) := by
  rw [driverBody_trace_of_allOk env r mn bc agent thread msg run msgs steps h]
  refine ⟨?_, ?_, ?_, ?_⟩
  · simp [hf]
  · simp
  · simp
  · intro hk
    cases hd : r.delete_agent agent.id with
    | error e => simp [cleanupPhase, hk, hd]
    | ok u => simp [cleanupPhase, hk, hd]

/-- Witness for C4: on a concrete failing run the error line, both listing
calls, and the deletion attempt are all in the trace. -/
theorem failed_run_still_proceeds_witness :
    Ev.out ("Run failed: " ++ "rate limited") ∈
      (driverBody emptyEnv failRemote "gpt" "conn").1 ∧
    Ev.call (CallEv.listMessages "thread-1") ∈
      (driverBody emptyEnv failRemote "gpt" "conn").1 ∧
    Ev.call (CallEv.listRunSteps "thread-1" "run-1") ∈
      (driverBody emptyEnv failRemote "gpt" "conn").1 ∧
    Ev.call (CallEv.deleteAgent "agent-1") ∈
      (driverBody emptyEnv failRemote "gpt" "conn").1 := by
  have h := failed_run_still_proceeds emptyEnv failRemote "gpt" "conn"
    ⟨"agent-1"⟩ ⟨"thread-1"⟩ ⟨"msg-1"⟩ ⟨"run-1", "failed", "rate limited"⟩
    msgsW stepsW ⟨rfl, rfl, rfl, rfl, rfl, rfl⟩ rfl
  exact ⟨h.1, h.2.1, h.2.2.1, h.2.2.2 (by decide)⟩

/-- C5: when `KEEP_AGENT` is truthy the driver records no agent-deletion
call and no deletion confirmation line on any path; when it is not truthy
and the sequence succeeds, the deletion call is made and the confirmation
printed. -/
theorem keep_agent_controls_deletion (env : Env) (r : Remote) (mn bc : String) :
    (truthy (env "KEEP_AGENT") = true →
      ∀ ev ∈ (driverBody env r mn bc).1, nonDeletionEv ev) ∧
    (truthy (env "KEEP_AGENT") = false →
      ∀ (agent : Agent) (thread : Thread) (msg : Message) (run : Run)
        (msgs steps : List Elem),
        allOk env r mn bc agent thread msg run msgs steps →
        r.delete_agent agent.id = Except.ok () →
        Ev.call (CallEv.deleteAgent agent.id) ∈ (driverBody env r mn bc).1 ∧
        Ev.out "Deleted agent" ∈ (driverBody env r mn bc).1) := by
  constructor
  · exact fun hk => driverBody_nonDeletion env r mn bc hk
  · intro hk agent thread msg run msgs steps h hd
    rw [driverBody_trace_of_allOk env r mn bc agent thread msg run msgs steps h]
    constructor <;> simp [cleanupPhase, hk, hd]

/-- Witness for C5: with `KEEP_AGENT` set to `1` the confirmation line is
absent from the trace; with `KEEP_AGENT` absent the deletion call and the
confirmation are present. -/
theorem keep_agent_controls_deletion_witness :
    truthy (envKeep "KEEP_AGENT") = true ∧
    Ev.out "Deleted agent" ∉ (driverBody envKeep okRemote "gpt" "conn").1 ∧
    Ev.call (CallEv.deleteAgent "agent-1") ∈ (driverBody emptyEnv okRemote "gpt" "conn").1 ∧
    Ev.out "Deleted agent" ∈ (driverBody emptyEnv okRemote "gpt" "conn").1 := by
  refine ⟨by decide, ?_, ?_, ?_⟩
  · intro hmem
    exact ((keep_agent_controls_deletion envKeep okRemote "gpt" "conn").1
      (by decide) _ hmem).2 rfl
  · exact ((keep_agent_controls_deletion emptyEnv okRemote "gpt" "conn").2 (by decide)
      ⟨"agent-1"⟩ ⟨"thread-1"⟩ ⟨"msg-1"⟩ ⟨"run-1", "completed", "None"⟩
      msgsW stepsW ⟨rfl, rfl, rfl, rfl, rfl, rfl⟩ rfl).1
  · exact ((keep_agent_controls_deletion emptyEnv okRemote "gpt" "conn").2 (by decide)
      ⟨"agent-1"⟩ ⟨"thread-1"⟩ ⟨"msg-1"⟩ ⟨"run-1", "completed", "None"⟩
      msgsW stepsW ⟨rfl, rfl, rfl, rfl, rfl, rfl⟩ rfl).2

/-- C6: the driver posts exactly one message: every message-creation call
in the trace has role `user` and content equal to `QUESTION` (or the fixed
default when `QUESTION` is absent), and on a path where agent and thread
creation succeed there is exactly one such call, into the new thread. -/
theorem single_user_message (env : Env) (r : Remote) (mn bc : String) :
    (∀ tid role content,
      Ev.call (CallEv.createMessage tid role content) ∈ (driverBody env r mn bc).1 →
        role = "user" ∧ content = (env "QUESTION").getD defaultQuestion) ∧
    (∀ (agent : Agent) (thread : Thread),
      r.create_agent mn "bigsearch-agent" agentInstructions bc = Except.ok agent →
      r.threads_create = Except.ok thread →
      (driverBody env r mn bc).1.countP isCreateMessage = 1 ∧
      Ev.call (CallEv.createMessage thread.id "user"
        ((env "QUESTION").getD defaultQuestion)) ∈ (driverBody env r mn bc).1) :=
  ⟨fun tid role content h => createMessage_mem_inv env r mn bc tid role content h,
   fun agent thread h1 h2 =>
     ⟨countP_createMessage env r mn bc agent thread h1 h2,
      createMessage_mem env r mn bc agent thread h1 h2⟩⟩

/-- Witness for C6: on a concrete successful path there is exactly one
message-creation call and it posts the default question as the user. -/
theorem single_user_message_witness :
    (driverBody emptyEnv okRemote "gpt" "conn").1.countP isCreateMessage = 1 ∧
    Ev.call (CallEv.createMessage "thread-1" "user" defaultQuestion) ∈
      (driverBody emptyEnv okRemote "gpt" "conn").1 :=
  (single_user_message emptyEnv okRemote "gpt" "conn").2 ⟨"agent-1"⟩ ⟨"thread-1"⟩ rfl rfl

/-- C7: on every path on which the project client was constructed, the
trace ends with the client release, whether the body completed or a remote
call raised. -/
theorem client_released_on_every_path (env : Env) (r : Remote)
    (h : ∃ ep cred, Ev.call (CallEv.constructClient ep cred) ∈ (main env r).trace) :
    (main env r).trace.getLast? = some Ev.clientClosed := by
  obtain ⟨ep, cred, hmem⟩ := h
  cases hg1 : get_env env "PROJECT_ENDPOINT" true with
  | error ec =>
      simp only [main, hg1] at hmem
      simp at hmem
  | ok pe =>
  cases hg2 : get_env env "MODEL_DEPLOYMENT_NAME" true with
  | error ec =>
      simp only [main, hg1, hg2] at hmem
      simp at hmem
  | ok mn =>
  cases hg3 : get_env env "BING_CONNECTION_ID" true with
  | error ec =>
      simp only [main, hg1, hg2, hg3] at hmem
      simp at hmem
  | ok bc =>
  cases hg4 : get_env env "AZURE_AI_FOUNDRY_API_KEY" false with
  | error ec =>
      simp only [main, hg1, hg2, hg3, hg4] at hmem
      simp at hmem
  | ok ak =>
      simp only [main, hg1, hg2, hg3, hg4]
      rw [← List.cons_append, ← List.append_assoc, List.getLast?_concat]

/-- Witness for C7: on a concrete full run the trace ends with the client
release. -/
theorem client_released_on_every_path_witness :
    (main fullEnv okRemote).trace.getLast? = some Ev.clientClosed :=
  client_released_on_every_path fullEnv okRemote
    ⟨"https://proj.example", Credential.defaultAzureCred, by decide⟩

/-- C8: field resolution of listed elements is total and shape-directed:
for a mapping it is key lookup, otherwise attribute access with a `None`
fallback, and on a successful path every listed message and step (of
either shape) yields its printed line in the trace. -/
theorem defensive_field_resolution (env : Env) (r : Remote) (mn bc : String)
    (agent : Agent) (thread : Thread) (msg : Message) (run : Run)
    (msgs steps : List Elem)
    (h : allOk env r mn bc agent thread msg run msgs steps) :
    (∀ m ∈ msgs, Ev.out (messageLine m) ∈ (driverBody env r mn bc).1) ∧
    (∀ s ∈ steps, Ev.out (stepLine s) ∈ (driverBody env r mn bc).1) ∧
    (∀ (entries : List (String × String)) (key : String),
      resolveField (Elem.dict entries) key = dict_get entries key) ∧
    (∀ (attrs : List (String × String)) (key : String),
      resolveField (Elem.obj attrs) key = getattr_or_none attrs key) := by
  rw [driverBody_trace_of_allOk env r mn bc agent thread msg run msgs steps h]
  refine ⟨?_, ?_, fun entries key => rfl, fun attrs key => rfl⟩
  · intro m hm
    apply List.mem_cons_of_mem
    apply List.mem_cons_of_mem
    apply List.mem_cons_of_mem
    apply List.mem_cons_of_mem
    apply List.mem_cons_of_mem
    apply List.mem_cons_of_mem
    apply List.mem_cons_of_mem
    apply List.mem_cons_of_mem
    apply List.mem_append_right
    apply List.mem_cons_of_mem
    apply List.mem_cons_of_mem
    apply List.mem_append_left
    exact List.mem_map_of_mem _ hm
  · intro s hs
    apply List.mem_cons_of_mem
    apply List.mem_cons_of_mem
    apply List.mem_cons_of_mem
    apply List.mem_cons_of_mem
    apply List.mem_cons_of_mem
    apply List.mem_cons_of_mem
    apply List.mem_cons_of_mem
    apply List.mem_cons_of_mem
    apply List.mem_append_right
    apply List.mem_cons_of_mem
    apply List.mem_cons_of_mem
    apply List.mem_append_right
    apply List.mem_cons_of_mem
    apply List.mem_cons_of_mem
    apply List.mem_append_left
    exact List.mem_map_of_mem _ hs

/-- Witness for C8: a dict-shaped message and an object-shaped step both
resolve and print on a concrete run. -/
theorem defensive_field_resolution_witness :
    Ev.out (messageLine (Elem.dict [("role", "user"), ("content", "q")])) ∈
      (driverBody emptyEnv okRemote "gpt" "conn").1 ∧
    Ev.out (stepLine (Elem.obj [("id", "step-1"), ("status", "completed")])) ∈
      (driverBody emptyEnv okRemote "gpt" "conn").1 ∧
    resolveField (Elem.dict [("role", "user")]) "role" = dict_get [("role", "user")] "role" := by
  have h := defensive_field_resolution emptyEnv okRemote "gpt" "conn"
    ⟨"agent-1"⟩ ⟨"thread-1"⟩ ⟨"msg-1"⟩ ⟨"run-1", "completed", "None"⟩
    msgsW stepsW ⟨rfl, rfl, rfl, rfl, rfl, rfl⟩
  exact ⟨h.1 _ (by decide), h.2.1 _ (by decide), h.2.2.1 _ _⟩

/-- C9: `KEEP_AGENT` present but bound to the empty string is not truthy,
so the driver still makes the deletion call and prints the confirmation. -/
theorem keep_agent_empty_still_deletes (env : Env) (r : Remote) (mn bc : String)
    (agent : Agent) (thread : Thread) (msg : Message) (run : Run)
    (msgs steps : List Elem)
    (hk : env "KEEP_AGENT" = some "")
    (h : allOk env r mn bc agent thread msg run msgs steps)
    (hd : r.delete_agent agent.id = Except.ok ()) :
    Ev.call (CallEv.deleteAgent agent.id) ∈ (driverBody env r mn bc).1 ∧
    Ev.out "Deleted agent" ∈ (driverBody env r mn bc).1 := by
  have hkf : truthy (env "KEEP_AGENT") = false := by rw [hk]; rfl
  rw [driverBody_trace_of_allOk env r mn bc agent thread msg run msgs steps h]
  constructor <;> simp [cleanupPhase, hkf, hd]

/-- Witness for C9: `KEEP_AGENT=""` still leads to deletion and the
confirmation line. -/
theorem keep_agent_empty_still_deletes_witness :
    Ev.call (CallEv.deleteAgent "agent-1") ∈
      (driverBody envKeepEmpty okRemote "gpt" "conn").1 ∧
    Ev.out "Deleted agent" ∈ (driverBody envKeepEmpty okRemote "gpt" "conn").1 :=
  keep_agent_empty_still_deletes envKeepEmpty okRemote "gpt" "conn"
    ⟨"agent-1"⟩ ⟨"thread-1"⟩ ⟨"msg-1"⟩ ⟨"run-1", "completed", "None"⟩
    msgsW stepsW (by decide) ⟨rfl, rfl, rfl, rfl, rfl, rfl⟩ rfl

/-- C10: the default question is used only when `QUESTION` is entirely
absent; when `QUESTION` is present but empty the posted content is the
empty string and no call posts the default text. -/
theorem empty_question_posts_empty (env : Env) (r : Remote) (mn bc : String)
    (agent : Agent) (thread : Thread)
    (h1 : r.create_agent mn "bigsearch-agent" agentInstructions bc = Except.ok agent)
    (h2 : r.threads_create = Except.ok thread) :
    (env "QUESTION" = some "" →
      Ev.call (CallEv.createMessage thread.id "user" "") ∈ (driverBody env r mn bc).1 ∧
      ∀ tid role, Ev.call (CallEv.createMessage tid role defaultQuestion) ∉
        (driverBody env r mn bc).1) ∧
    (env "QUESTION" = none →
      Ev.call (CallEv.createMessage thread.id "user" defaultQuestion) ∈
        (driverBody env r mn bc).1) := by
  constructor
  · intro hq
    constructor
    · have hmem := createMessage_mem env r mn bc agent thread h1 h2
      rw [hq, Option.getD_some] at hmem
      exact hmem
    · intro tid role hmem
      have hinv := createMessage_mem_inv env r mn bc tid role defaultQuestion hmem
      rw [hq, Option.getD_some] at hinv
      exact absurd hinv.2 (by decide)
  · intro hq
    have hmem := createMessage_mem env r mn bc agent thread h1 h2
    rw [hq, Option.getD_none] at hmem
    exact hmem

/-- Witness for C10: with `QUESTION=""` the posted content is the empty
string, and the default text is never posted. -/
theorem empty_question_posts_empty_witness :
    Ev.call (CallEv.createMessage "thread-1" "user" "") ∈
      (driverBody envEmptyQ okRemote "gpt" "conn").1 ∧
    Ev.call (CallEv.createMessage "thread-1" "user" defaultQuestion) ∉
      (driverBody envEmptyQ okRemote "gpt" "conn").1 := by
  have h := (empty_question_posts_empty envEmptyQ okRemote "gpt" "conn"
    ⟨"agent-1"⟩ ⟨"thread-1"⟩ rfl rfl).1 (by decide)
  exact ⟨h.1, h.2 "thread-1" "user"⟩

end BingSearch
